import Mathlib

/-!
Verification development for the subscription-tracker core: a shallow embedding
of the period/date helpers, the subscription service operations
(create, update, total-cost aggregation), the repository query predicates and
the storage schema from the migration, followed by theorems settling the
frozen claims about them.

Conventions of the embedding:
- Go strings are Lean `String`; Go byte-wise string comparison (and the
  Postgres VARCHAR comparison used on the `MM-YYYY` columns) is `goStrLe`,
  lexicographic on the character list. All characters involved are ASCII, so
  code-point order coincides with byte order.
- Go `int` is `Int`; the JSON number in the update payload (Go `float64`) is
  `Rat`; Go `int(x)` truncation toward zero is `goTrunc`.
- `uuid.UUID` is `Nat` with `uuidNil = 0` standing for `uuid.Nil`.
- The persistence engine is a `Store`: the committed table rows plus the next
  SERIAL id and a clock used for the gorm-maintained timestamps. Gorm's soft
  delete scope (rows with a tombstone are invisible to queries) is the
  `Subscription.live` filter applied wherever gorm adds it.
-/

namespace SubTracker

/-! ## Characters, digits and Go string comparison -/

/-- True iff the character is an ASCII decimal digit (used both by the regexp
`[0-9]` character class and by the digit check of `strconv.Atoi`). -/
def isDigitChar (c : Char) : Bool :=
  decide ('0' ≤ c) && decide (c ≤ '9')

/-- Decimal value of a digit character. -/
def digitVal (c : Char) : ℕ := c.toNat - 48

/-- Decimal value of a digit string. -/
def digitsVal (l : List Char) : ℕ :=
  l.foldl (fun acc c => acc * 10 + digitVal c) 0

/-- Embedding of `strconv.Atoi` on the pre-validated substrings the service
feeds it: the decimal value of a nonempty all-digit string, and Go's zero
value otherwise (the caller discards the error with `_`). Signs never occur
in this program's inputs. -/
def goAtoi (l : List Char) : ℤ :=
  if l ≠ [] ∧ l.all isDigitChar then (digitsVal l : ℤ) else 0

/-- Lexicographic comparison of character lists: the order Go uses for
`string <= string` and Postgres uses for the VARCHAR `start_date`/`end_date`
columns (all compared values are ASCII digit/dash strings, where every
collation agrees with byte order). -/
def goStrLeList : List Char → List Char → Bool
  | [], _ => true
  | _ :: _, [] => false
  | a :: as, b :: bs => if a = b then goStrLeList as bs else decide (a < b)

/-- Go `a <= b` on strings. -/
def goStrLe (a b : String) : Bool := goStrLeList a.data b.data

/-- Embedding of `strings.Split(s, "-")` (single-character separator). -/
def splitOnSep (sep : Char) : List Char → List (List Char)
  | [] => [[]]
  | c :: rest =>
    if c = sep then [] :: splitOnSep sep rest
    else
      match splitOnSep sep rest with
      | [] => [[c]]
      | h :: t => (c :: h) :: t

/-- The `(0[1-9]|1[0-2])` alternative of the date regexp, on the two month
characters. -/
def monthCharsOK (a b : Char) : Bool :=
  ((a = '0' : Bool) && decide ('1' ≤ b) && decide (b ≤ '9')) ||
  ((a = '1' : Bool) && decide ('0' ≤ b) && decide (b ≤ '2'))

/-- Embedding of `isValidDate` (service/subscription.go): the string matches
`^(0[1-9]|1[0-2])-[0-9]{4}$`. -/
def isValidDate (s : String) : Bool :=
  match s.data with
  | [m1, m2, sep, y1, y2, y3, y4] =>
    (sep = '-' : Bool) && monthCharsOK m1 m2 &&
      isDigitChar y1 && isDigitChar y2 && isDigitChar y3 && isDigitChar y4
  | _ => false

/-- Embedding of `calculateMonthsBetween` (service/subscription.go): split both
`MM-YYYY` strings on `-`, Atoi the pieces, and return
`(endYear-startYear)*12 + (endMonth-startMonth) + 1`. -/
def calculateMonthsBetween (startDate endDate : String) : ℤ :=
  let startParts := splitOnSep '-' startDate.data
  let endParts := splitOnSep '-' endDate.data
  let startMonth := goAtoi (startParts.getD 0 [])
  let startYear := goAtoi (startParts.getD 1 [])
  let endMonth := goAtoi (endParts.getD 0 [])
  let endYear := goAtoi (endParts.getD 1 [])
  (endYear - startYear) * 12 + (endMonth - startMonth) + 1

/-! ## Position-based reading of a valid `MM-YYYY` string

These are the reference parse used to state properties: the month is the value
of the first two characters, the year the value of the last four. -/

/-- Month denoted by a validly formatted `MM-YYYY` string. -/
def monthOf (s : String) : ℤ :=
  match s.data with
  | m1 :: m2 :: _ => (digitsVal [m1, m2] : ℤ)
  | _ => 0

/-- Year denoted by a validly formatted `MM-YYYY` string. -/
def yearOf (s : String) : ℤ :=
  match s.data with
  | _ :: _ :: _ :: rest => (digitsVal rest : ℤ)
  | _ => 0

/-- Absolute month index of a period (year-major), used to compare and count
calendar months chronologically. -/
def monthIndex (s : String) : ℤ := yearOf s * 12 + monthOf s

/-- Modelled from the spec (§4.1 `Period.compare`): strict chronological
comparison, by year then month. -/
def specChronoLt (a b : String) : Bool :=
  decide (yearOf a < yearOf b ∨ (yearOf a = yearOf b ∧ monthOf a < monthOf b))

/-- Modelled from the spec (§4.1 `Period.compare`): chronological
less-or-equal, by year then month. -/
def specChronoLe (a b : String) : Bool :=
  decide (yearOf a < yearOf b ∨ (yearOf a = yearOf b ∧ monthOf a ≤ monthOf b))

/-! ## ILIKE -/

/-- Contiguous-sublist test on character lists (used to embed SQL
`field ILIKE %pattern%` once both sides are lowercased). -/
def isSubList (p : List Char) : List Char → Bool
  | [] => p.isEmpty
  | c :: rest => p.isPrefixOf (c :: rest) || isSubList p rest

/-- Embedding of the repository filter `service_name ILIKE %pattern%`:
case-insensitive substring containment. -/
def ilike (pat field : String) : Bool :=
  isSubList (pat.data.map Char.toLower) (field.data.map Char.toLower)

/-! ## Data model -/

/-- `uuid.UUID`, as an opaque identifier; `uuidNil` stands for `uuid.Nil`. -/
abbrev UUID := ℕ

def uuidNil : UUID := 0

/-- Embedding of `models.Subscription` (the sole entity): the gorm model
backed by the `subscriptions` table. `deletedAt = none` means the row is
live; a timestamp means soft-deleted. -/
structure Subscription where
  id : ℕ
  serviceName : String
  price : ℤ
  userID : UUID
  startDate : String
  endDate : Option String
  createdAt : ℕ
  updatedAt : ℕ
  deletedAt : Option ℕ
deriving DecidableEq

/-- Gorm soft-delete scope: the row is visible to queries. -/
def Subscription.live (r : Subscription) : Bool := r.deletedAt.isNone

/-- The committed database state: rows, the next SERIAL id, and the clock
gorm uses for `created_at` / `updated_at`. -/
structure Store where
  rows : List Subscription
  nextId : ℕ
  now : ℕ
deriving DecidableEq

/-! ## Repository queries (part_012) -/

/-- Embedding of `ExistsByUserServiceAndDate`: a live row with the same
`(user_id, service_name, start_date)` triple exists (`COUNT > 0`). -/
def existsByUserServiceAndDate (st : Store) (userID : UUID)
    (serviceName startDate : String) : Bool :=
  st.rows.any fun r =>
    r.live && (r.userID == userID) && (r.serviceName == serviceName) &&
      (r.startDate == startDate)

/-- Embedding of the SQL overlap condition used by both
`GetSubscriptionsInDateRange` and `CalculateTotalCostInDB`:
`start_date <= queryEnd AND (end_date IS NULL OR end_date >= queryStart)`,
with VARCHAR (lexicographic) comparison. -/
def overlapsSQL (candStart : String) (candEnd : Option String)
    (qStart qEnd : String) : Bool :=
  goStrLe candStart qEnd &&
    (match candEnd with
     | none => true
     | some e => goStrLe qStart e)

/-- Row filter of `GetSubscriptionsInDateRange`: soft-delete scope, optional
`user_id` equality, optional `service_name ILIKE` substring, overlap. -/
def matchesRange (userID : Option UUID) (serviceName : Option String)
    (qStart qEnd : String) (r : Subscription) : Bool :=
  r.live &&
    (match userID with | none => true | some u => r.userID == u) &&
    (match serviceName with | none => true | some sn => ilike sn r.serviceName) &&
    overlapsSQL r.startDate r.endDate qStart qEnd

/-- Embedding of `GetSubscriptionsInDateRange`. -/
def getSubscriptionsInDateRange (st : Store) (userID : Option UUID)
    (serviceName : Option String) (qStart qEnd : String) : List Subscription :=
  st.rows.filter (matchesRange userID serviceName qStart qEnd)

/-- Row filter of `CalculateTotalCostInDB`: same overlap and `user_id` filter,
but the `service_name` filter is exact equality (`service_name = ?`), not
ILIKE. -/
def matchesAggregate (userID : Option UUID) (serviceName : Option String)
    (qStart qEnd : String) (r : Subscription) : Bool :=
  r.live &&
    (match userID with | none => true | some u => r.userID == u) &&
    (match serviceName with | none => true | some sn => r.serviceName == sn) &&
    overlapsSQL r.startDate r.endDate qStart qEnd

/-- Embedding of `CalculateTotalCostInDB`:
`COALESCE(SUM(price * totalMonths), 0)` over the filtered rows. -/
def calculateTotalCostInDB (st : Store) (userID : Option UUID)
    (serviceName : Option String) (qStart qEnd : String) (totalMonths : ℤ) : ℤ :=
  ((st.rows.filter (matchesAggregate userID serviceName qStart qEnd)).map
    fun r => r.price * totalMonths).sum

/-- Embedding of `GetByID` as the service uses it: `db.First` under the
soft-delete scope. -/
def getByID (st : Store) (id : ℕ) : Option Subscription :=
  st.rows.find? fun r => r.live && (r.id == id)

/-! ## Row constraints of the migrated schema
(db/migrations/001_create_subscriptions_table.up.sql) -/

/-- Row-level constraints the migration declares: the NOT NULL columns are
carried by the field types, plus `CHECK (price > 0)` and the `MM-YYYY`
format CHECKs on `start_date` and (when present) `end_date`
(`chk_start_date_format`, `chk_end_date_format`). An INSERT or UPDATE whose
row violates one of them fails with a constraint violation. -/
def rowSatisfiesChecks (r : Subscription) : Bool :=
  decide (0 < r.price) && isValidDate r.startDate &&
    (match r.endDate with
     | none => true
     | some e => isValidDate e)

/-! ## CreateSubscription (service/subscription.go) -/

/-- Embedding of `models.CreateSubscriptionRequest`. -/
structure CreateRequest where
  serviceName : String
  price : ℤ
  userID : UUID
  startDate : String
  endDate : Option String
deriving DecidableEq

/-- The error exits of `CreateSubscription`, one constructor per
`errors.New` site. -/
inductive CreateError
  | invalidInput | badStartDate | badEndDate | endNotAfterStart
  | guardCheckFailed | conflict | insertFailed
deriving DecidableEq

/-- What happened to the transaction handle opened by `s.db.Begin()` by the
time `CreateSubscription` returned: never opened, committed, or left open
(the function returned without calling either `Commit` or `Rollback`; the
deferred handler rolls back only on panic). -/
inductive TxFate
  | notOpened | committed | leftOpen
deriving DecidableEq

/-- Failures the persistence engine can inject into the transactional part of
`CreateSubscription`: the duplicate-guard read erroring, or the insert
erroring. Used to exercise each `if err != nil` branch of the source. -/
structure DBFaults where
  guardReadFails : Bool
  insertFails : Bool
deriving DecidableEq

def noFaults : DBFaults := ⟨false, false⟩

instance {ε α : Type} [DecidableEq ε] [DecidableEq α] : DecidableEq (Except ε α) :=
  fun x y =>
    match x, y with
    | .error a, .error b =>
      if h : a = b then .isTrue (by rw [h]) else .isFalse (by simp [h])
    | .error _, .ok _ => .isFalse (by simp)
    | .ok _, .error _ => .isFalse (by simp)
    | .ok a, .ok b =>
      if h : a = b then .isTrue (by rw [h]) else .isFalse (by simp [h])

/-- Result of one `CreateSubscription` call: the returned value or error, the
committed store afterwards, and the fate of the transaction handle. -/
structure CreateResult where
  result : Except CreateError Subscription
  store : Store
  txFate : TxFate
deriving DecidableEq

/-- The row `CreateSubscription` builds and inserts: fields copied from the
request (including the `EndDate` pointer as-is), id assigned by the engine,
timestamps set by the engine at commit. -/
def mkRow (st : Store) (req : CreateRequest) : Subscription :=
  ⟨st.nextId, req.serviceName, req.price, req.userID, req.startDate,
    req.endDate, st.now, st.now, none⟩

/-- The store after a successful insert of `mkRow` commits (reached only for
rows the schema accepts). -/
def insertStore (st : Store) (req : CreateRequest) : Store :=
  ⟨st.rows ++ [mkRow st req], st.nextId + 1, st.now⟩

/-- The transactional phase of `CreateSubscription` (after `s.db.Begin()`):
duplicate-guard read, conflict test, insert, commit. The insert errors
either through an injected engine fault or because the built row violates
the CHECK constraints of the migrated table (`rowSatisfiesChecks`); both
surface through the same `if err != nil` branch of the source. On the
guard-read error, the detected conflict, and the insert error, the source
returns without `Rollback` or `Commit`, so the handle is left open. -/
def createTx (faults : DBFaults) (st : Store) (req : CreateRequest) : CreateResult :=
  if faults.guardReadFails then ⟨.error .guardCheckFailed, st, .leftOpen⟩
  else if existsByUserServiceAndDate st req.userID req.serviceName req.startDate then
    ⟨.error .conflict, st, .leftOpen⟩
  else if faults.insertFails || !(rowSatisfiesChecks (mkRow st req)) then
    ⟨.error .insertFailed, st, .leftOpen⟩
  else ⟨.ok (mkRow st req), insertStore st req, .committed⟩

/-- Embedding of `CreateSubscription`: input validation (string comparison of
the periods included), then the transactional phase. -/
def createSubscription (faults : DBFaults) (st : Store) (req : CreateRequest) :
    CreateResult :=
  if req.serviceName = "" ∨ req.price ≤ 0 ∨ req.userID = uuidNil then
    ⟨.error .invalidInput, st, .notOpened⟩
  else if ¬ isValidDate req.startDate then
    ⟨.error .badStartDate, st, .notOpened⟩
  else
    match req.endDate with
    | some e =>
      if e ≠ "" then
        if ¬ isValidDate e then ⟨.error .badEndDate, st, .notOpened⟩
        else if goStrLe e req.startDate then ⟨.error .endNotAfterStart, st, .notOpened⟩
        else createTx faults st req
      else createTx faults st req
    | none => createTx faults st req

/-! ## UpdateSubscription (service/subscription.go + repository UpdateWithTransaction) -/

/-- Go `int(x)` on a `float64`: truncation toward zero. -/
def goTrunc (q : ℚ) : ℤ := q.num.tdiv (q.den : ℤ)

/-- Embedding of the dynamic `map[string]interface{}` update payload, one
optional field per key the service reads. A JSON number arrives as Go
`float64`, hence `ℚ` for `price`. For `end_date`, `some ""` is the
present-but-empty string (which the service interprets as clearing the end
date) and `none` is an absent key. -/
structure UpdatePatch where
  serviceName : Option String
  price : Option ℚ
  startDate : Option String
  endDate : Option String
deriving DecidableEq

/-- The error exits of `UpdateSubscription` / `UpdateWithTransaction`. -/
inductive UpdateError
  | notFound | priceInvalid | badStartDate | startNotBeforeEnd
  | badEndDate | endNotAfterStart | conflict
deriving DecidableEq

/-- Result of one `UpdateSubscription` call: the returned value or error, the
committed store afterwards, and whether storage was written (`tx.Save`). -/
structure UpdateResult where
  result : Except UpdateError Subscription
  store : Store
  wrote : Bool
deriving DecidableEq

/-- The `service_name` branch of `UpdateSubscription`: applied only when the
key is present and nonempty, mutating only on an actual change. -/
def stepServiceName (sub : Subscription) : Option String → Subscription
  | none => sub
  | some sn =>
    if sn ≠ "" then
      if sn ≠ sub.serviceName then { sub with serviceName := sn } else sub
    else sub

/-- The `price` branch of `UpdateSubscription`: a present non-positive price
is rejected before anything is persisted; otherwise the truncated value is
applied on an actual change. -/
def stepPrice (sub : Subscription) : Option ℚ → Except UpdateError Subscription
  | none => .ok sub
  | some p =>
    if p ≤ 0 then .error .priceInvalid
    else
      if goTrunc p ≠ sub.price then .ok { sub with price := goTrunc p } else .ok sub

/-- The `start_date` branch of `UpdateSubscription`: format check, then (on an
actual change) the string comparison against the current end date. -/
def stepStartDate (sub : Subscription) : Option String → Except UpdateError Subscription
  | none => .ok sub
  | some sd =>
    if sd ≠ "" then
      if ¬ isValidDate sd then .error .badStartDate
      else if sd ≠ sub.startDate then
        match sub.endDate with
        | some e =>
          if goStrLe e sd then .error .startNotBeforeEnd
          else .ok { sub with startDate := sd }
        | none => .ok { sub with startDate := sd }
      else .ok sub
    else .ok sub

/-- The `end_date` branch of `UpdateSubscription`: a nonempty value is format
checked and string-compared against the (possibly already updated) start
date, then always assigned; an empty value clears the end date. -/
def stepEndDate (sub : Subscription) : Option String → Except UpdateError Subscription
  | none => .ok sub
  | some ed =>
    if ed ≠ "" then
      if ¬ isValidDate ed then .error .badEndDate
      else if goStrLe ed sub.startDate then .error .endNotAfterStart
      else .ok { sub with endDate := some ed }
    else .ok { sub with endDate := none }

/-- The four update branches in source order. -/
def applyUpdates (sub : Subscription) (u : UpdatePatch) :
    Except UpdateError Subscription := do
  let s1 := stepServiceName sub u.serviceName
  let s2 ← stepPrice s1 u.price
  let s3 ← stepStartDate s2 u.startDate
  stepEndDate s3 u.endDate

/-- Embedding of the repository `UpdateWithTransaction`
(internal/repository/subscription.go): inside `db.Transaction`, re-load the
row, run the conflict check only when `service_name` or `start_date`
changed, then `tx.Save` unconditionally (which also refreshes
`updated_at`). `db.Transaction` commits on success and rolls back on error,
so no transaction fate needs tracking here. -/
def updateWithTransaction (st : Store) (sub : Subscription) : UpdateResult :=
  match st.rows.find? (fun r => r.live && (r.id == sub.id)) with
  | none => ⟨.error .notFound, st, false⟩
  | some existing =>
    if sub.serviceName ≠ existing.serviceName ∨ sub.startDate ≠ existing.startDate then
      if st.rows.any (fun r =>
          r.live && (r.userID == sub.userID) && (r.serviceName == sub.serviceName) &&
            (r.startDate == sub.startDate) && (r.id != sub.id)) then
        ⟨.error .conflict, st, false⟩
      else saveRow st sub
    else saveRow st sub
where
  /-- `tx.Save(subscription)`: overwrite the row and refresh `updated_at`. -/
  saveRow (st : Store) (sub : Subscription) : UpdateResult :=
    let saved := { sub with updatedAt := st.now }
    ⟨.ok saved,
      ⟨st.rows.map (fun r => if r.id = sub.id then saved else r), st.nextId, st.now⟩,
      true⟩

/-- Embedding of `UpdateSubscription`: load by id, apply/validate the present
fields, then always hand the record to `UpdateWithTransaction`. -/
def updateSubscription (st : Store) (id : ℕ) (updates : UpdatePatch) : UpdateResult :=
  match getByID st id with
  | none => ⟨.error .notFound, st, false⟩
  | some sub =>
    match applyUpdates sub updates with
    | .error e => ⟨.error e, st, false⟩
    | .ok sub2 => updateWithTransaction st sub2

/-! ## CalculateTotalCost (service/subscription.go) -/

/-- Embedding of `models.CostCalculationRequest`. -/
structure CostRequest where
  userID : Option UUID
  serviceName : Option String
  startDate : String
  endDate : String
deriving DecidableEq

/-- The error exits of `CalculateTotalCost` validation. -/
inductive CostError
  | badStartDate | badEndDate | endNotAfterStart
deriving DecidableEq

/-- Embedding of `models.CostCalculationResponse`. -/
structure CostResponse where
  totalCost : ℤ
  startDate : String
  endDate : String
  userID : Option UUID
  serviceName : Option String
  subscriptions : List Subscription
deriving DecidableEq

/-- Embedding of `CalculateTotalCost`: validate formats, string-compare the
range, compute `totalMonths` from the query range alone, aggregate in the
database (exact `service_name` match), and return the ILIKE-filtered
overlapping rows alongside. -/
def calculateTotalCost (st : Store) (req : CostRequest) :
    Except CostError CostResponse :=
  if ¬ isValidDate req.startDate then .error .badStartDate
  else if ¬ isValidDate req.endDate then .error .badEndDate
  else if goStrLe req.endDate req.startDate then .error .endNotAfterStart
  else
    let totalMonths := calculateMonthsBetween req.startDate req.endDate
    let totalCost := calculateTotalCostInDB st req.userID req.serviceName
      req.startDate req.endDate totalMonths
    let subs := getSubscriptionsInDateRange st req.userID req.serviceName
      req.startDate req.endDate
    .ok ⟨totalCost, req.startDate, req.endDate, req.userID, req.serviceName, subs⟩

/-- Total cost of a response, when the call succeeded. -/
def costOf (st : Store) (req : CostRequest) : Option ℤ :=
  match calculateTotalCost st req with
  | .ok resp => some resp.totalCost
  | .error _ => none

/-! ## Spec-side cost model (for comparison with the code) -/

/-- Modelled from the spec (§4.1 `Period.overlaps`), with the chronological
comparison the spec defines: `candidateStart ≤ queryEnd` and
(`candidateEnd` absent or `candidateEnd ≥ queryStart`). -/
def specOverlap (candStart : String) (candEnd : Option String)
    (qStart qEnd : String) : Bool :=
  specChronoLe candStart qEnd &&
    (match candEnd with
     | none => true
     | some e => specChronoLe qStart e)

/-- Modelled from the spec (§4.5): the number of calendar months in the
intersection of the record coverage window and the query window. -/
def specMonthsOverlap (candStart : String) (candEnd : Option String)
    (qStart qEnd : String) : ℤ :=
  let lo := max (monthIndex candStart) (monthIndex qStart)
  let hi := match candEnd with
    | none => monthIndex qEnd
    | some e => min (monthIndex e) (monthIndex qEnd)
  max 0 (hi - lo + 1)

/-- Modelled from the spec (§4.5 CostAggregator): the total is the sum, over
exactly the rows returned as `matchingSubscriptions`, of
`price × monthsOverlap`. -/
def specTotalCost (st : Store) (req : CostRequest) : ℤ :=
  ((getSubscriptionsInDateRange st req.userID req.serviceName
      req.startDate req.endDate).map
    fun r => r.price * specMonthsOverlap r.startDate r.endDate
      req.startDate req.endDate).sum

/-! ## Storage schema (db/migrations/001_create_subscriptions_table.up.sql)

The row-level CHECK constraints are `rowSatisfiesChecks`, defined above the
create operation, which enforces them at insert time. -/

/-- Table states the migrated schema admits: every row passes its CHECK
constraints and ids are pairwise distinct (`id SERIAL PRIMARY KEY`). The
migration declares no other uniqueness: its five `idx_subscriptions_*`
indexes are all non-unique. -/
def schemaAccepts (rows : List Subscription) : Bool :=
  rows.all rowSatisfiesChecks && decide (rows.map Subscription.id).Nodup

/-- Two rows share the `(user_id, service_name, start_date)` triple. -/
def sameTriple (r1 r2 : Subscription) : Bool :=
  (r1.userID == r2.userID) && (r1.serviceName == r2.serviceName) &&
    (r1.startDate == r2.startDate)

/-! ## Two concurrent creates (read-committed interleaving)

`CreateSubscription` runs its duplicate guard and its insert in a transaction
opened with `s.db.Begin()` at the engine default isolation (read committed:
each statement sees the state committed at the time it runs), with no
row locking and — per the migration — no storage uniqueness constraint on the
triple. The model below runs two such creates step by step: a `guard` step is
the `ExistsByUserServiceAndDate` count reading the committed store, a
`commit` step is the insert becoming visible atomically at `tx.Commit()`.
Collapsing insert-then-commit into one atomic step only removes
interleavings, so any behaviour exhibited here is a behaviour of the code. -/

/-- One scheduler step of one of the two requests (`true` picks the first). -/
inductive ConcOp
  | guard (first : Bool)
  | commit (first : Bool)
deriving DecidableEq

/-- Joint state of two in-flight `CreateSubscription` calls. -/
structure TwoCreateState where
  store : Store
  guardOkA : Bool
  guardOkB : Bool
  resultA : Option (Except CreateError Subscription)
  resultB : Option (Except CreateError Subscription)
deriving DecidableEq

/-- Guard step of request A/B: the count query over the committed store; a
found duplicate makes the call return the conflict error (leaving its
transaction open, cf. `createTx`). -/
def guardStep (req : CreateRequest) (st : Store) : Bool × Option (Except CreateError Subscription) :=
  if existsByUserServiceAndDate st req.userID req.serviceName req.startDate then
    (false, some (.error .conflict))
  else (true, none)

/-- Interleaving semantics of the two creates. A step of a finished request,
or a commit before its own guard, is a no-op. -/
def stepOp (reqA reqB : CreateRequest) (s : TwoCreateState) : ConcOp → TwoCreateState
  | .guard true =>
    if s.resultA.isSome then s
    else
      let g := guardStep reqA s.store
      { s with guardOkA := g.1, resultA := g.2 }
  | .guard false =>
    if s.resultB.isSome then s
    else
      let g := guardStep reqB s.store
      { s with guardOkB := g.1, resultB := g.2 }
  | .commit true =>
    if s.resultA.isSome || !s.guardOkA then s
    else
      let sub := mkRow s.store reqA
      { s with store := insertStore s.store reqA, resultA := some (.ok sub) }
  | .commit false =>
    if s.resultB.isSome || !s.guardOkB then s
    else
      let sub := mkRow s.store reqB
      { s with store := insertStore s.store reqB, resultB := some (.ok sub) }

/-- Run a schedule of steps for the two concurrent creates. -/
def runSchedule (reqA reqB : CreateRequest) (st : Store) (ops : List ConcOp) :
    TwoCreateState :=
  ops.foldl (stepOp reqA reqB) ⟨st, false, false, none, none⟩

/-- Number of live rows carrying a given triple. -/
def liveTripleCount (st : Store) (userID : UUID) (serviceName startDate : String) : ℕ :=
  (st.rows.filter fun r =>
    r.live && (r.userID == userID) && (r.serviceName == serviceName) &&
      (r.startDate == startDate)).length

/-! ## Concrete states and requests used by the theorems -/

/-- An empty table, next SERIAL id 1, clock 0. -/
def emptyStore : Store := ⟨[], 1, 0⟩

/-- A live Netflix subscription of user 7 covering `02-2024` onward. -/
def cRow1 : Subscription := ⟨1, "Netflix", 999, 7, "02-2024", none, 0, 0, none⟩

def cStore1 : Store := ⟨[cRow1], 2, 0⟩

/-- Cost query of user 7 over `01-2024 .. 03-2024`. -/
def cReq1 : CostRequest := ⟨some 7, none, "01-2024", "03-2024"⟩

/-- Create request whose end period `01-2025` is chronologically after its
start period `12-2024`. -/
def reqC2good : CreateRequest := ⟨"Netflix", 999, 7, "12-2024", some "01-2025"⟩

/-- Create request whose end period `12-2024` is chronologically before its
start period `01-2025`. -/
def reqC2bad : CreateRequest := ⟨"Netflix", 999, 7, "01-2025", some "12-2024"⟩

/-- A live subscription starting `12-2024`, for the Update comparison site. -/
def rowDec : Subscription := ⟨1, "Spotify", 500, 9, "12-2024", none, 0, 0, none⟩

def stDec : Store := ⟨[rowDec], 2, 3⟩

/-- The create request raced by the two concurrent callers. -/
def reqT3 : CreateRequest := ⟨"Netflix", 999, 7, "01-2024", none⟩

/-- The read-committed interleaving in which both guards run before either
commit: guard A, guard B, commit A, commit B. -/
def concFinal : TwoCreateState :=
  runSchedule reqT3 reqT3 emptyStore [.guard true, .guard false, .commit true, .commit false]

/-- A live subscription starting `01-2024` with no end period. -/
def r4 : Subscription := ⟨1, "Netflix", 999, 7, "01-2024", none, 0, 0, none⟩

def st4 : Store := ⟨[r4], 2, 0⟩

/-- A store already holding the `(7, Netflix, 01-2024)` triple. -/
def dupStore : Store := ⟨[⟨1, "Netflix", 999, 7, "01-2024", none, 0, 0, none⟩], 2, 0⟩

/-- A live subscription last updated at time 1. -/
def r6 : Subscription := ⟨1, "Netflix", 999, 7, "01-2024", none, 0, 1, none⟩

/-- Store holding `r6`, with the clock now at 5. -/
def st6 : Store := ⟨[r6], 2, 5⟩

/-- An update payload whose values all equal the current values of `r6`. -/
def noOpPatch : UpdatePatch := ⟨some "Netflix", some (999 : ℚ), some "01-2024", none⟩

/-- Two rows with distinct ids but the same live triple. -/
def rowA7 : Subscription := ⟨1, "Netflix", 999, 7, "01-2024", none, 0, 0, none⟩

def rowB7 : Subscription := ⟨2, "Netflix", 999, 7, "01-2024", none, 0, 0, none⟩

/-- Another pair of valid rows sharing the `(8, Hulu, 05-2025)` triple. -/
def rowC7 : Subscription := ⟨3, "Hulu", 42, 8, "05-2025", some "07-2025", 0, 0, none⟩

def rowD7 : Subscription := ⟨4, "Hulu", 99, 8, "05-2025", none, 0, 0, none⟩

/-- A create request carrying a present-but-empty end period. -/
def reqEmptyEnd : CreateRequest := ⟨"Netflix", 999, 7, "01-2024", some ""⟩

/-! ## Helper lemmas -/

/-- A validly formatted date is two month digit characters, a dash, and four
year digit characters. -/
theorem valid_shape (s : String) (h : isValidDate s = true) :
    ∃ m1 m2 y1 y2 y3 y4, s.data = [m1, m2, '-', y1, y2, y3, y4] ∧
      monthCharsOK m1 m2 = true ∧ isDigitChar y1 = true ∧ isDigitChar y2 = true ∧
      isDigitChar y3 = true ∧ isDigitChar y4 = true := by
  unfold isValidDate at h
  split at h
  next m1 m2 sep y1 y2 y3 y4 heq =>
    simp only [Bool.and_eq_true, decide_eq_true_eq] at h
    obtain ⟨⟨⟨⟨⟨hsep, hm⟩, h1⟩, h2⟩, h3⟩, h4⟩ := h
    subst hsep
    exact ⟨m1, m2, y1, y2, y3, y4, heq, hm, h1, h2, h3, h4⟩
  next => exact absurd h (by simp)

/-- A validly formatted date is not the empty string. -/
theorem valid_ne_empty {s : String} (h : isValidDate s = true) : s ≠ "" := by
  intro hs
  subst hs
  exact absurd h (by decide)

/-- A digit character is not the dash separator. -/
theorem digit_ne_dash {c : Char} (h : isDigitChar c = true) : ¬ c = '-' := by
  intro hc
  subst hc
  exact absurd h (by decide)

/-- Both characters accepted by the month alternative of the regexp are
digits. -/
theorem monthChars_digits {a b : Char} (h : monthCharsOK a b = true) :
    isDigitChar a = true ∧ isDigitChar b = true := by
  unfold monthCharsOK at h
  simp only [Bool.or_eq_true, Bool.and_eq_true, decide_eq_true_eq] at h
  unfold isDigitChar
  simp only [Bool.and_eq_true, decide_eq_true_eq]
  rcases h with ⟨⟨ha, hb1⟩, hb2⟩ | ⟨⟨ha, hb1⟩, hb2⟩
  · subst ha
    exact ⟨by decide, le_trans (by decide) hb1, hb2⟩
  · subst ha
    exact ⟨by decide, hb1, le_trans hb2 (by decide)⟩

/-- Splitting a seven-character `MM-YYYY` list on the dash yields the month
part and the year part. -/
theorem splitOnSep_seven (m1 m2 y1 y2 y3 y4 : Char)
    (h1 : ¬ m1 = '-') (h2 : ¬ m2 = '-') (h3 : ¬ y1 = '-') (h4 : ¬ y2 = '-')
    (h5 : ¬ y3 = '-') (h6 : ¬ y4 = '-') :
    splitOnSep '-' [m1, m2, '-', y1, y2, y3, y4] = [[m1, m2], [y1, y2, y3, y4]] := by
  simp [splitOnSep, h1, h2, h3, h4, h5, h6]

/-- `goAtoi` on a two-digit list is its decimal value. -/
theorem goAtoi_two (a b : Char) (ha : isDigitChar a = true) (hb : isDigitChar b = true) :
    goAtoi [a, b] = (digitsVal [a, b] : ℤ) := by
  unfold goAtoi
  rw [if_pos ⟨by simp, by simp [List.all, ha, hb]⟩]

/-- `goAtoi` on a four-digit list is its decimal value. -/
theorem goAtoi_four (a b c d : Char) (ha : isDigitChar a = true)
    (hb : isDigitChar b = true) (hc : isDigitChar c = true) (hd : isDigitChar d = true) :
    goAtoi [a, b, c, d] = (digitsVal [a, b, c, d] : ℤ) := by
  unfold goAtoi
  rw [if_pos ⟨by simp, by simp [List.all, ha, hb, hc, hd]⟩]

/-- On validly formatted inputs, the split-and-Atoi computation of
`calculateMonthsBetween` equals the year/month formula over the positional
parse of both strings. -/
theorem cmb_formula (s1 s2 : String) (h1 : isValidDate s1 = true)
    (h2 : isValidDate s2 = true) :
    calculateMonthsBetween s1 s2
      = (yearOf s2 - yearOf s1) * 12 + (monthOf s2 - monthOf s1) + 1 := by
  obtain ⟨a1, b1, c1, d1, e1, f1, hs1, hm1, hc1, hd1, he1, hf1⟩ := valid_shape s1 h1
  obtain ⟨a2, b2, c2, d2, e2, f2, hs2, hm2, hc2, hd2, he2, hf2⟩ := valid_shape s2 h2
  obtain ⟨ha1, hb1⟩ := monthChars_digits hm1
  obtain ⟨ha2, hb2⟩ := monthChars_digits hm2
  unfold calculateMonthsBetween monthOf yearOf
  rw [hs1, hs2]
  rw [splitOnSep_seven _ _ _ _ _ _ (digit_ne_dash ha1) (digit_ne_dash hb1)
    (digit_ne_dash hc1) (digit_ne_dash hd1) (digit_ne_dash he1) (digit_ne_dash hf1)]
  rw [splitOnSep_seven _ _ _ _ _ _ (digit_ne_dash ha2) (digit_ne_dash hb2)
    (digit_ne_dash hc2) (digit_ne_dash hd2) (digit_ne_dash he2) (digit_ne_dash hf2)]
  simp only [List.getD, List.get?, Option.getD]
  rw [goAtoi_two _ _ ha1 hb1, goAtoi_two _ _ ha2 hb2,
    goAtoi_four _ _ _ _ hc1 hd1 he1 hf1, goAtoi_four _ _ _ _ hc2 hd2 he2 hf2]

/-- Summing `price * k` over a row list factors out `k`. -/
theorem sum_price_mul (l : List Subscription) (k : ℤ) :
    (l.map fun r => r.price * k).sum = k * (l.map fun r => r.price).sum := by
  induction l with
  | nil => simp
  | cons a t ih =>
    simp [ih]
    ring

/-- Go truncation of a `float64` holding an integer value is that value. -/
theorem goTrunc_intCast (n : ℤ) : goTrunc (n : ℚ) = n := by
  unfold goTrunc
  rw [Rat.num_intCast, Rat.den_intCast]
  simp

/-! ## Claims -/

/-- Claim C1, counterexample. The claim asserts that the total returned by
`CalculateTotalCost` is the sum of `price × monthsOverlap` over the
returned rows, `monthsOverlap` being the months of the intersection of the
record window with the query window. On a store holding one 999-priced
record covering `02-2024` onward and the query `[01-2024, 03-2024]`, the
code returns `999 × monthsBetween(01-2024, 03-2024) = 2997`, while the
intersection is only `[02-2024, 03-2024]`, so the spec total is
`999 × 2 = 1998`. -/
theorem C1_counterexample :
    costOf cStore1 cReq1 ≠ some (specTotalCost cStore1 cReq1) ∧
    costOf cStore1 cReq1 = some 2997 ∧
    specTotalCost cStore1 cReq1 = 1998 := by
  decide

/-- Claim C1, amended. For every valid cost query, the code returns
`total = monthsBetween(queryStart, queryEnd) × Σ price` over the rows
matching the aggregate filter (exact `service_name` equality), applied
uniformly regardless of each record's own coverage window, while the
returned `matchingSubscriptions` are the rows matching the range filter
(`service_name ILIKE` substring). -/
theorem C1_total_is_uniform_months_times_price_sum (st : Store) (req : CostRequest)
    (h1 : isValidDate req.startDate = true) (h2 : isValidDate req.endDate = true)
    (h3 : goStrLe req.endDate req.startDate = false) :
    calculateTotalCost st req = .ok
      ⟨calculateMonthsBetween req.startDate req.endDate *
          ((st.rows.filter (matchesAggregate req.userID req.serviceName
            req.startDate req.endDate)).map fun r => r.price).sum,
        req.startDate, req.endDate, req.userID, req.serviceName,
        getSubscriptionsInDateRange st req.userID req.serviceName
          req.startDate req.endDate⟩ := by
  unfold calculateTotalCost
  rw [if_neg (by simp [h1]), if_neg (by simp [h2]), if_neg (by simp [h3])]
  simp only [calculateTotalCostInDB, sum_price_mul]

/-- Claim C1, witness: the amended theorem applied to the concrete store and
query of the counterexample. -/
theorem C1_witness :
    calculateTotalCost cStore1 cReq1 = .ok
      ⟨calculateMonthsBetween cReq1.startDate cReq1.endDate *
          ((cStore1.rows.filter (matchesAggregate cReq1.userID cReq1.serviceName
            cReq1.startDate cReq1.endDate)).map fun r => r.price).sum,
        cReq1.startDate, cReq1.endDate, cReq1.userID, cReq1.serviceName,
        getSubscriptionsInDateRange cStore1 cReq1.userID cReq1.serviceName
          cReq1.startDate cReq1.endDate⟩ :=
  C1_total_is_uniform_months_times_price_sum cStore1 cReq1 (by decide) (by decide)
    (by decide)

/-- Claim C2. The claim asserts the core compares periods chronologically by
year then month, accepting start `12-2024` with end `01-2025`. The code
compares the raw `MM-YYYY` text: the create validation rejects that pair
with the end-not-after-start error (while the chronological order holds),
accepts the chronologically backwards pair start `01-2025` / end `12-2024`,
and the same text comparison drives the `CalculateTotalCost` range check
and the Update end-date check. -/
theorem C2_period_comparison_is_lexicographic :
    isValidDate "12-2024" = true ∧
    isValidDate "01-2025" = true ∧
    specChronoLt "12-2024" "01-2025" = true ∧
    createSubscription noFaults emptyStore reqC2good
      = ⟨.error .endNotAfterStart, emptyStore, .notOpened⟩ ∧
    createSubscription noFaults emptyStore reqC2bad
      = ⟨.ok (mkRow emptyStore reqC2bad), insertStore emptyStore reqC2bad, .committed⟩ ∧
    calculateTotalCost emptyStore ⟨none, none, "12-2024", "01-2025"⟩
      = .error .endNotAfterStart ∧
    (updateSubscription stDec 1 ⟨none, none, none, some "01-2025"⟩).result
      = .error .endNotAfterStart := by
  decide

/-- Claim C3. The claim asserts that of N concurrent creates with an identical
triple exactly one commits and an execution where two commit is impossible.
In the read-committed interleaving where both duplicate-guard reads run
before either commit (and with no storage uniqueness constraint, cf. the
migration), both creates return success and the final store holds two live
rows with the same triple. -/
theorem C3_concurrent_creates_both_commit :
    concFinal.resultA = some (.ok ⟨1, "Netflix", 999, 7, "01-2024", none, 0, 0, none⟩) ∧
    concFinal.resultB = some (.ok ⟨2, "Netflix", 999, 7, "01-2024", none, 0, 0, none⟩) ∧
    liveTripleCount concFinal.store 7 "Netflix" "01-2024" = 2 := by
  decide

/-- Claim C4. The claim asserts the overlap predicate compares chronologically,
so a record starting `01-2024` with no end does not overlap the query
window `[06-2023, 06-2023]`. The SQL predicate compares the `MM-YYYY` text:
`01-2024 <= 06-2023` holds lexicographically, so the code counts that
record as overlapping (and returns it from the range query), though the
chronological predicate is false there; on `[06-2024, 12-2024]` both
agree. -/
theorem C4_overlap_uses_lexicographic_compare :
    overlapsSQL "01-2024" none "06-2023" "06-2023" = true ∧
    specOverlap "01-2024" none "06-2023" "06-2023" = false ∧
    overlapsSQL "01-2024" none "06-2024" "12-2024" = true ∧
    specOverlap "01-2024" none "06-2024" "12-2024" = true ∧
    getSubscriptionsInDateRange st4 none none "06-2023" "06-2023" = [r4] := by
  decide

/-- Claim C5. The claim asserts every failure after the transaction opens
triggers a rollback and the handle is never left open. In the code, the
detected-conflict return, the guard-read-error return and the
insert-error return all surface the error with the transaction neither
committed nor rolled back (only the panic path rolls back); only the
success path commits. -/
theorem C5_error_paths_leave_transaction_open :
    createSubscription noFaults dupStore reqT3
      = ⟨.error .conflict, dupStore, .leftOpen⟩ ∧
    createSubscription ⟨true, false⟩ emptyStore reqT3
      = ⟨.error .guardCheckFailed, emptyStore, .leftOpen⟩ ∧
    createSubscription ⟨false, true⟩ emptyStore reqT3
      = ⟨.error .insertFailed, emptyStore, .leftOpen⟩ ∧
    createSubscription noFaults emptyStore reqT3
      = ⟨.ok (mkRow emptyStore reqT3), insertStore emptyStore reqT3, .committed⟩ := by
  decide

/-- Claim C6, counterexample. The claim asserts a no-op Update does not write
to storage and does not alter `updatedAt`. Updating `r6` (stored
`updatedAt = 1`, clock now 5) with a payload equal to all its current
values succeeds and returns the unchanged fields, but storage is written
and the stored `updatedAt` becomes 5. -/
theorem C6_counterexample :
    noOpPatch.serviceName = some r6.serviceName ∧
    noOpPatch.price = some (r6.price : ℚ) ∧
    noOpPatch.startDate = some r6.startDate ∧
    r6.endDate = none ∧ noOpPatch.endDate = none ∧
    (updateSubscription st6 1 noOpPatch).wrote = true ∧
    (updateSubscription st6 1 noOpPatch).result = .ok { r6 with updatedAt := 5 } ∧
    getByID (updateSubscription st6 1 noOpPatch).store 1 = some { r6 with updatedAt := 5 } ∧
    ({ r6 with updatedAt := 5 } : Subscription).updatedAt ≠ r6.updatedAt := by
  decide

/-- Claim C6, amended. Calling Update with a payload whose values equal the
current values of an existing record succeeds and returns the record with
all caller-set fields unchanged, but the code persists unconditionally:
`UpdateWithTransaction` saves the row on every successful call, so storage
is written and `updatedAt` is refreshed to the save time even though no
field changed. -/
theorem C6_noop_update_still_writes (st : Store) (id : ℕ) (r : Subscription)
    (patch : UpdatePatch)
    (hfind : getByID st id = some r)
    (hps : patch.serviceName = some r.serviceName)
    (hpp : patch.price = some (r.price : ℚ))
    (hpd : patch.startDate = some r.startDate)
    (hpe : patch.endDate = none)
    (hsn : r.serviceName ≠ "")
    (hp : 0 < r.price)
    (hsd : isValidDate r.startDate = true) :
    updateSubscription st id patch
      = ⟨.ok { r with updatedAt := st.now },
          ⟨st.rows.map (fun x => if x.id = r.id then { r with updatedAt := st.now } else x),
            st.nextId, st.now⟩,
          true⟩ := by
  have hid : r.id = id := by
    have hpred := List.find?_some hfind
    simp only [Bool.and_eq_true, beq_iff_eq] at hpred
    exact hpred.2
  have happ : applyUpdates r patch = .ok r := by
    have hq : ¬ ((r.price : ℚ) ≤ 0) := by
      rw [not_le]
      exact_mod_cast hp
    simp [applyUpdates, hps, hpp, hpd, hpe, stepServiceName, stepPrice, stepStartDate,
      stepEndDate, hsn, hq, hsd, goTrunc_intCast, valid_ne_empty hsd, Bind.bind, Except.bind]
  unfold updateSubscription
  rw [hfind]
  dsimp only
  rw [happ]
  dsimp only
  unfold updateWithTransaction
  have hfind2 : st.rows.find? (fun row => row.live && row.id == r.id) = some r := by
    rw [hid]
    exact hfind
  rw [hfind2]
  dsimp only
  rw [if_neg (by simp)]
  rfl

/-- Claim C6, witness: the amended theorem applied to the concrete no-op
update of the counterexample. -/
theorem C6_witness :
    updateSubscription st6 1 noOpPatch
      = ⟨.ok { r6 with updatedAt := st6.now },
          ⟨st6.rows.map (fun x => if x.id = r6.id then { r6 with updatedAt := st6.now } else x),
            st6.nextId, st6.now⟩,
          true⟩ :=
  C6_noop_update_still_writes st6 1 r6 noOpPatch (by decide) rfl rfl rfl rfl
    (by decide) (by decide) (by decide)

/-- Claim C7, counterexample. The claim asserts the migrated schema rejects
any state with two non-deleted rows sharing a
`(user_id, service_name, start_date)` triple. The table produced by the
migration accepts two distinct live rows with an identical triple: its
only uniqueness is the SERIAL primary key, and its CHECK constraints
concern price positivity and date format only. -/
theorem C7_counterexample :
    schemaAccepts [rowA7, rowB7] = true ∧
    sameTriple rowA7 rowB7 = true ∧
    rowA7.live = true ∧ rowB7.live = true ∧ rowA7 ≠ rowB7 := by
  decide

/-- Claim C7, amended. The migration enforces only the primary-key uniqueness
of `id`, NOT NULL columns, `CHECK (price > 0)` and the `MM-YYYY` format
checks; it declares no uniqueness over the triple, so any two rows passing
the row checks and differing in `id` are accepted together, regardless of
triple collisions among non-deleted rows. -/
theorem C7_schema_accepts_duplicate_triples (r1 r2 : Subscription)
    (h1 : rowSatisfiesChecks r1 = true) (h2 : rowSatisfiesChecks r2 = true)
    (h3 : r1.id ≠ r2.id) :
    schemaAccepts [r1, r2] = true := by
  simp [schemaAccepts, List.all, h1, h2, List.nodup_cons, h3]

/-- Claim C7, witness: the amended theorem applied to two valid live rows
sharing the `(8, Hulu, 05-2025)` triple. -/
theorem C7_witness :
    sameTriple rowC7 rowD7 = true ∧ schemaAccepts [rowC7, rowD7] = true :=
  ⟨by decide, C7_schema_accepts_duplicate_triples rowC7 rowD7 (by decide) (by decide)
    (by decide)⟩

/-- Claim C8. For every existing record, an Update whose payload carries only
a non-positive price fails with the price validation error before any
write: the store is unchanged and a subsequent `findByID` returns exactly
the record as it was, `updatedAt` included. -/
theorem C8_nonpositive_price_update_rejected (st : Store) (id : ℕ)
    (r : Subscription) (q : ℚ)
    (hfind : getByID st id = some r) (hq : q ≤ 0) :
    updateSubscription st id ⟨none, some q, none, none⟩
      = ⟨.error .priceInvalid, st, false⟩ ∧
    getByID (updateSubscription st id ⟨none, some q, none, none⟩).store id = some r := by
  have happ : applyUpdates r ⟨none, some q, none, none⟩ = .error .priceInvalid := by
    simp [applyUpdates, stepServiceName, stepPrice, hq, Bind.bind, Except.bind]
  have hres : updateSubscription st id ⟨none, some q, none, none⟩
      = ⟨.error .priceInvalid, st, false⟩ := by
    unfold updateSubscription
    rw [hfind]
    dsimp only
    rw [happ]
  exact ⟨hres, by rw [hres]; exact hfind⟩

/-- Claim C8, witness: updating `r6` with price 0 fails and leaves the store
untouched. -/
theorem C8_witness :
    updateSubscription st6 1 ⟨none, some (0 : ℚ), none, none⟩
        = ⟨.error .priceInvalid, st6, false⟩ ∧
    getByID (updateSubscription st6 1 ⟨none, some (0 : ℚ), none, none⟩).store 1 = some r6 :=
  C8_nonpositive_price_update_rejected st6 1 r6 0 (by decide) (by decide)

/-- Claim C9. For validly formatted periods with the start at or before the
end, `calculateMonthsBetween` equals the inclusive month count
`(endYear - startYear) * 12 + (endMonth - startMonth) + 1` over the
positional parse of both strings; in particular the three listed examples
evaluate to 1, 3 and 2. -/
theorem C9_monthsBetween_formula :
    (∀ s1 s2 : String, isValidDate s1 = true → isValidDate s2 = true →
      specChronoLe s1 s2 = true →
      calculateMonthsBetween s1 s2
        = (yearOf s2 - yearOf s1) * 12 + (monthOf s2 - monthOf s1) + 1) ∧
    calculateMonthsBetween "01-2024" "01-2024" = 1 ∧
    calculateMonthsBetween "01-2024" "03-2024" = 3 ∧
    calculateMonthsBetween "12-2023" "01-2024" = 2 :=
  ⟨fun s1 s2 h1 h2 _ => cmb_formula s1 s2 h1 h2, by decide, by decide, by decide⟩

/-- Claim C9, witness: the formula applied to the fresh pair
`06-2024 .. 09-2025`, giving 16 months. -/
theorem C9_witness : calculateMonthsBetween "06-2024" "09-2025" = 16 := by
  have h := C9_monthsBetween_formula.1 "06-2024" "09-2025" (by decide) (by decide)
    (by decide)
  rw [h]
  decide

/-- Claim C10, counterexample. The claim asserts the create with a
present-but-empty end period commits and persists the empty string as the
end period. The service validation is indeed skipped, but the row the
create builds carries `end_date = some ""`, which violates the
`chk_end_date_format` CHECK of the migrated table, so the INSERT fails:
the create returns the insert error, the store is unchanged, and no such
record is ever persisted. -/
theorem C10_counterexample :
    createSubscription noFaults emptyStore reqEmptyEnd
      = ⟨.error .insertFailed, emptyStore, .leftOpen⟩ ∧
    (mkRow emptyStore reqEmptyEnd).endDate = some "" ∧
    rowSatisfiesChecks (mkRow emptyStore reqEmptyEnd) = false ∧
    isValidDate "" = false := by
  decide

/-- Claim C10, amended. A create whose end-date field is present but empty
skips both the format check (the empty string is not a valid date) and the
end-after-start check, reaching the transactional phase, and attempts to
persist the empty string itself as the end period; but the built row
violates the `chk_end_date_format` CHECK of the migrated schema, so the
INSERT fails and the create surfaces the insert error with the store
unchanged (and, per the C5 behavior, the transaction left open) — no
record with an empty end period is ever stored. Had such a row existed,
every overlap query with a validly formatted query start would have
excluded it, the empty string comparing below every nonempty string. -/
theorem C10_empty_end_insert_rejected_by_schema (st : Store) (req : CreateRequest)
    (h1 : ¬ (req.serviceName = "" ∨ req.price ≤ 0 ∨ req.userID = uuidNil))
    (h2 : isValidDate req.startDate = true)
    (h3 : req.endDate = some "")
    (h4 : existsByUserServiceAndDate st req.userID req.serviceName req.startDate = false) :
    createSubscription noFaults st req = ⟨.error .insertFailed, st, .leftOpen⟩ ∧
    (mkRow st req).endDate = some "" ∧
    rowSatisfiesChecks (mkRow st req) = false ∧
    isValidDate "" = false ∧
    goStrLe "" req.startDate = true ∧
    ∀ (r : Subscription), r.endDate = some "" →
      ∀ (stq : Store) (uf : Option UUID) (sf : Option String) (qs qe : String),
        isValidDate qs = true → r ∉ getSubscriptionsInDateRange stq uf sf qs qe := by
  have hend : (mkRow st req).endDate = some "" := by simp [mkRow, h3]
  have hval : isValidDate "" = false := by decide
  have hrsc : rowSatisfiesChecks (mkRow st req) = false := by
    simp [rowSatisfiesChecks, hend, hval]
  refine ⟨?_, hend, hrsc, hval, ?_, ?_⟩
  · unfold createSubscription
    rw [if_neg h1, if_neg (by simp [h2]), h3]
    simp [createTx, noFaults, h4, hrsc]
  · unfold goStrLe
    have hd : ("" : String).data = [] := rfl
    rw [hd]
    rfl
  · intro r hr stq uf sf qs qe hqs hmem
    have hq0 : goStrLe qs "" = false := by
      obtain ⟨m1, m2, y1, y2, y3, y4, hsq, -⟩ := valid_shape qs hqs
      unfold goStrLe
      rw [hsq]
      rfl
    obtain ⟨-, hmatch⟩ := List.mem_filter.mp hmem
    simp [matchesRange, overlapsSQL, hr, hq0] at hmatch

/-- Claim C10, witness: the amended theorem applied to the empty-end-date
create on the empty store — the insert is rejected by the schema and the
store stays empty. -/
theorem C10_witness :
    createSubscription noFaults emptyStore reqEmptyEnd
        = ⟨.error .insertFailed, emptyStore, .leftOpen⟩ ∧
    rowSatisfiesChecks (mkRow emptyStore reqEmptyEnd) = false := by
  have h := C10_empty_end_insert_rejected_by_schema emptyStore reqEmptyEnd
    (by decide) (by decide) rfl (by decide)
  exact ⟨h.1, h.2.2.1⟩

end SubTracker
